/-
Verification of the RepoPilot repository-grounded assistant.

This file gives a shallow embedding, in Lean 4, of the parts of the
RepoPilot code base that the checked claims are about, together with
theorems settling those claims.  Each definition is translated from a
named Python source file of the repository; doc comments cite the file
(and, where helpful, the function) a definition embeds.  External
library primitives that the code calls (hashlib sha256, zlib crc32,
the LLM providers, the Chroma vector store, the JSON parser) are
modelled as function parameters or environment fields: the embedding
is faithful to how the repository code *uses* them, while their
internals are left uninterpreted.

Machine floats are modelled with exact arithmetic (ℚ, and ℝ for the
L2-normalisation of the mock embedder); Python integers with ℕ/ℤ.
-/

import Mathlib

namespace RepoPilot

/-! ## Python string primitives

Small total models of the Python string operations the embedded code
uses: `str.lower`, the `in` substring test, `str.split()` (whitespace
split), `str.splitlines(keepends=True)`, and `pathlib.Path(...).suffix`.
All of them are faithful for ASCII text (the only caveat: `Char.toLower`
only lowers ASCII letters, where Python lowers full Unicode).
-/

/-- Python `s.lower()` (ASCII-faithful). -/
def pyLower (s : String) : String := String.mk (s.data.map Char.toLower)

/-- Character-list substring scan backing `pyIn`. -/
def containsSeq (needle : List Char) : List Char → Bool
  | [] => needle.isEmpty
  | c :: rest => needle.isPrefixOf (c :: rest) || containsSeq needle rest

/-- Python `needle in hay` substring containment. -/
def pyIn (needle hay : String) : Bool := containsSeq needle.data hay.data

/-- Whitespace characters recognised by Python `str.split()` (ASCII set). -/
def pyIsSpace (c : Char) : Bool :=
  c = ' ' || c = '\t' || c = '\n' || c = '\x0d' || c = '\x0b' || c = '\x0c'

/-- Helper for `pySplit`: split a character list on whitespace runs. -/
def pySplitGo : List Char → List Char → List String
  | [], acc => if acc = [] then [] else [String.mk acc.reverse]
  | c :: rest, acc =>
      if pyIsSpace c then
        if acc = [] then pySplitGo rest []
        else String.mk acc.reverse :: pySplitGo rest []
      else pySplitGo rest (c :: acc)

/-- Python `s.split()`: split on whitespace runs, discarding empty pieces. -/
def pySplit (s : String) : List String := pySplitGo s.data []

/-- Line-break characters of Python `str.splitlines` (besides `\r\n`). -/
def isLineBreakChar (c : Char) : Bool :=
  c = '\n' || c = '\x0d' || c = '\x0b' || c = '\x0c' ||
  c = '\x1c' || c = '\x1d' || c = '\x1e' || c = '\x85' ||
  c = '\u2028' || c = '\u2029'

/-- Helper for `splitlinesKeepends`, accumulating the current line. -/
def splitlinesGo : List Char → List Char → List String
  | [], acc => if acc = [] then [] else [String.mk acc.reverse]
  | '\x0d' :: '\n' :: rest, acc =>
      String.mk (acc.reverse ++ ['\x0d', '\n']) :: splitlinesGo rest []
  | '\x0d' :: rest, acc =>
      String.mk (acc.reverse ++ ['\x0d']) :: splitlinesGo rest []
  | c :: rest, acc =>
      if isLineBreakChar c then
        String.mk (acc.reverse ++ [c]) :: splitlinesGo rest []
      else splitlinesGo rest (c :: acc)

/-- Python `content.splitlines(keepends=True)`. -/
def splitlinesKeepends (s : String) : List String := splitlinesGo s.data []

/-- `pathlib.Path(p).suffix.lower()`: the extension of the final path
component (from its last dot, which must be neither the first nor the
last character of the component), lowercased. -/
def pathSuffixLower (p : String) : String :=
  let name := ((p.splitOn "/").getLastD "").data
  let dotIdxs := (List.range name.length).filter fun i => name.getD i ' ' = '.'
  match dotIdxs.getLast? with
  | some i =>
      if 0 < i ∧ i < name.length - 1 then
        String.mk ((name.drop i).map Char.toLower)
      else ""
  | none => ""

/-! ## Chunk data model

From `backend/app/models/chunk.py` (`ChunkMetadata`, `Chunk`), shared
by the chunker, indexer, retriever and generator embeddings.
-/

structure ChunkMetadata where
  chunk_id : String
  repo_id : String
  file_path : String
  start_line : ℕ
  end_line : ℕ
  language : String
  chunk_type : String
  token_count : ℕ
  deriving DecidableEq, Repr

structure Chunk where
  metadata : ChunkMetadata
  content : String
  deriving DecidableEq, Repr

/-! ## Chunker

From `backend/app/services/chunker.py`.  The stdlib `hashlib.sha256`
hex digest is modelled as an uninterpreted function parameter
`sha256hex : String → String`.
-/

namespace ChunkerM

/-- `chunker.estimate_tokens`: `len(text) // 4`. -/
def estimate_tokens (text : String) : ℕ := text.length / 4

/-- `chunker.generate_chunk_id`: first 16 hex digits of
`sha256(f"{repo_id}:{file_path}:{start_line}")`. -/
def generate_chunk_id (sha256hex : String → String)
    (repo_id file_path : String) (start_line : ℕ) : String :=
  (sha256hex (repo_id ++ ":" ++ file_path ++ ":" ++ toString start_line)).take 16

/-- `CODE_EXTENSIONS` set. -/
def CODE_EXTENSIONS : List String :=
  [".py", ".js", ".ts", ".jsx", ".tsx", ".java", ".go", ".rs", ".rb",
   ".c", ".cpp", ".h", ".hpp", ".cs", ".swift", ".kt", ".scala",
   ".php", ".pl", ".lua", ".sh", ".bash", ".zsh", ".ps1", ".psm1"]

/-- `DOC_EXTENSIONS` set. -/
def DOC_EXTENSIONS : List String := [".md", ".rst", ".txt", ".adoc"]

/-- `CONFIG_EXTENSIONS` set. -/
def CONFIG_EXTENSIONS : List String :=
  [".json", ".yaml", ".yml", ".toml", ".ini", ".cfg", ".conf", ".xml"]

/-- The chunker configuration (`Chunker.__init__` fields; the global
instance uses `settings` defaults 150 / 20 / 500 / 100). -/
structure Chunker where
  code_chunk_lines : ℕ
  code_overlap : ℕ
  doc_chunk_tokens : ℕ
  doc_overlap : ℕ

/-- `Chunker._get_chunk_type`: strategy from the file extension;
unknown extensions default to `"code"`. -/
def get_chunk_type (file_path : String) : String :=
  let ext := pathSuffixLower file_path
  if ext ∈ CODE_EXTENSIONS then "code"
  else if ext ∈ DOC_EXTENSIONS then "doc"
  else if ext ∈ CONFIG_EXTENSIONS then "config"
  else "code"

/-- `Chunker._get_language` lookup table. -/
def langMap : List (String × String) :=
  [(".py", "python"), (".js", "javascript"), (".ts", "typescript"),
   (".jsx", "jsx"), (".tsx", "tsx"), (".java", "java"), (".go", "go"),
   (".rs", "rust"), (".rb", "ruby"), (".c", "c"), (".cpp", "cpp"),
   (".h", "c"), (".hpp", "cpp"), (".cs", "csharp"), (".swift", "swift"),
   (".kt", "kotlin"), (".scala", "scala"), (".php", "php"),
   (".md", "markdown"), (".json", "json"), (".yaml", "yaml"),
   (".yml", "yaml"), (".toml", "toml"), (".xml", "xml"),
   (".html", "html"), (".css", "css"), (".sql", "sql"), (".sh", "bash")]

/-- `Chunker._get_language`: table lookup, defaulting to the extension
with its leading dot stripped, or `"text"` when there is none. -/
def get_language (file_path : String) : String :=
  let ext := pathSuffixLower file_path
  match (langMap.filter fun p => p.1 = ext).head? with
  | some p => p.2
  | none => if ext = "" then "text" else String.mk (ext.data.dropWhile (· = '.'))

/-- The chunk the code loop emits at window start `i`
(0-indexed): `start_line = i + 1`, `end_line = end = min(i + window, len)`,
content `"".join(lines[i:end])`. -/
def codeChunkAt (ck : Chunker) (sha256hex : String → String)
    (repo_id file_path language : String) (lines : List String) (i : ℕ) :
    Chunk :=
  ⟨⟨generate_chunk_id sha256hex repo_id file_path (i + 1),
    repo_id, file_path, i + 1, min (i + ck.code_chunk_lines) lines.length,
    language, "code",
    estimate_tokens (String.join
      ((lines.drop i).take (min (i + ck.code_chunk_lines) lines.length - i)))⟩,
   String.join
     ((lines.drop i).take (min (i + ck.code_chunk_lines) lines.length - i))⟩

/-- The window advance of the code loop: `i = end - overlap` when more
lines remain (else `end`), bumped to `end` by the small-file guard
`i <= chunks[-1].start_line - 1` (the last chunk's start is `i + 1`).
Python `end - overlap` may go negative where ℕ subtraction truncates
at 0, but both sides then take the same `i = end` branch. -/
def codeNextIndex (ck : Chunker) (lines : List String) (i : ℕ) : ℕ :=
  let e := min (i + ck.code_chunk_lines) lines.length
  let next0 := if e < lines.length then e - ck.code_overlap else e
  if next0 ≤ (i + 1) - 1 then e else next0

/-- The `while i < len(lines)` loop of `Chunker.chunk_code_file`.
`fuel` bounds the iteration count (`lines.length` iterations suffice
whenever `1 ≤ code_chunk_lines`; with a zero window the Python loop
does not terminate). -/
def chunk_code_loop (ck : Chunker) (sha256hex : String → String)
    (repo_id file_path language : String) (lines : List String) :
    ℕ → ℕ → List Chunk
  | 0, _ => []
  | fuel + 1, i =>
      if i < lines.length then
        codeChunkAt ck sha256hex repo_id file_path language lines i ::
          chunk_code_loop ck sha256hex repo_id file_path language lines fuel
            (codeNextIndex ck lines i)
      else []

/-- `Chunker.chunk_code_file`: line window of `code_chunk_lines` with
`code_overlap` overlap and an anti-stall guard. -/
def chunk_code_file (ck : Chunker) (sha256hex : String → String)
    (content repo_id file_path : String) : List Chunk :=
  let lines := splitlinesKeepends content
  if lines = [] then []
  else chunk_code_loop ck sha256hex repo_id file_path
    (get_language file_path) lines lines.length 0

/-- Build one doc chunk from the accumulated state
(`chunk_doc_file`'s flush step). -/
def mkDocChunk (sha256hex : String → String)
    (repo_id file_path language : String)
    (cur : List String) (curStart curTokens : ℕ) : Chunk :=
  ⟨⟨generate_chunk_id sha256hex repo_id file_path curStart,
    repo_id, file_path, curStart, curStart + cur.length - 1, language,
    "doc", curTokens⟩, String.join cur⟩

/-- The `for i, line in enumerate(lines)` loop of
`Chunker.chunk_doc_file`, with the trailing flush of the final chunk.
State: current accumulated lines, their 1-indexed start, their token
count.  Python recomputes `current_start = i + 1 - len(current)` after
the overlap cut; the quantity is non-negative there, so ℕ subtraction
is exact. -/
def chunk_doc_loop (ck : Chunker) (sha256hex : String → String)
    (repo_id file_path language : String) :
    List String → ℕ → List String → ℕ → ℕ → List Chunk
  | [], _, cur, curStart, curTokens =>
      if cur = [] then []
      else [mkDocChunk sha256hex repo_id file_path language cur curStart curTokens]
  | line :: rest, i, cur, curStart, curTokens =>
      let lt := estimate_tokens line
      if curTokens + lt > ck.doc_chunk_tokens ∧ cur ≠ [] then
        let c := mkDocChunk sha256hex repo_id file_path language cur curStart curTokens
        let overlap_lines := max 1 (ck.doc_overlap / 50)
        let cur2 := cur.drop (cur.length - overlap_lines)
        let curStart2 := i + 1 - cur2.length
        let curTokens2 := (cur2.map estimate_tokens).sum
        c :: chunk_doc_loop ck sha256hex repo_id file_path language rest (i + 1)
          (cur2 ++ [line]) curStart2 (curTokens2 + lt)
      else
        chunk_doc_loop ck sha256hex repo_id file_path language rest (i + 1)
          (cur ++ [line]) curStart (curTokens + lt)

/-- `Chunker.chunk_doc_file`: accumulate lines up to `doc_chunk_tokens`,
flushing with a `max(1, doc_overlap // 50)`-line tail overlap. -/
def chunk_doc_file (ck : Chunker) (sha256hex : String → String)
    (content repo_id file_path : String) : List Chunk :=
  let lines := splitlinesKeepends content
  if lines = [] then []
  else chunk_doc_loop ck sha256hex repo_id file_path
    (get_language file_path) lines 0 [] 1 0

/-- `Chunker.chunk_config_file`: whole-file chunk when the estimated
tokens are below `doc_chunk_tokens` (`end_line = len(lines) or 1`),
otherwise chunk like code. -/
def chunk_config_file (ck : Chunker) (sha256hex : String → String)
    (content repo_id file_path : String) : List Chunk :=
  let tokens := estimate_tokens content
  let language := get_language file_path
  let lines := splitlinesKeepends content
  if tokens < ck.doc_chunk_tokens then
    [⟨⟨generate_chunk_id sha256hex repo_id file_path 1, repo_id, file_path,
       1, if lines.length = 0 then 1 else lines.length, language, "config",
       tokens⟩, content⟩]
  else chunk_code_file ck sha256hex content repo_id file_path

/-- `Chunker.chunk_file`: dispatch on the chunk type. -/
def chunk_file (ck : Chunker) (sha256hex : String → String)
    (content repo_id file_path : String) : List Chunk :=
  let ctype := get_chunk_type file_path
  if ctype = "code" then chunk_code_file ck sha256hex content repo_id file_path
  else if ctype = "doc" then chunk_doc_file ck sha256hex content repo_id file_path
  else chunk_config_file ck sha256hex content repo_id file_path

/-- The global `chunker = Chunker()` instance built from the
`settings` defaults (`config.py`). -/
def defaultChunker : Chunker := ⟨150, 20, 500, 100⟩

end ChunkerM

/-- A Python exception value (its message). -/
structure PyErr where
  msg : String
  deriving DecidableEq, Repr

instance {ε α : Type} [DecidableEq ε] [DecidableEq α] : DecidableEq (Except ε α) :=
  fun a b =>
    match a, b with
    | .error e, .error f =>
        if h : e = f then .isTrue (by rw [h]) else .isFalse (by simp [h])
    | .ok x, .ok y =>
        if h : x = y then .isTrue (by rw [h]) else .isFalse (by simp [h])
    | .error _, .ok _ => .isFalse (by simp)
    | .ok _, .error _ => .isFalse (by simp)

/-! ## Retriever

From `backend/app/services/retriever.py` (`Retriever.retrieve`, the
copy the core app's `routes/chat.py` and `generator.py` import).  The
Chroma collection is modelled as a function from the query request
(`n_results` plus the `include` flags) to the reply; the reply's
parallel `ids` / `documents` / `metadatas` arrays (which Chroma keeps
aligned) are modelled as a single list of aligned records, with
`distances` kept as a separate optional list (the source requests it
but leaves its use commented out).

The spec describes a hybrid rerank for this function; the spec-worded
construction (`tokenize`, `specLexical`, `specSemantic`,
`specScoredCandidates`, a stable descending sort and `top k`) is
defined alongside, clearly named, for comparison with the source
translation.
-/

namespace RetrieverM

/-- A word character of the spec tokenizer (`alphanumeric/underscore`). -/
def isWordChar (c : Char) : Bool := c.isAlphanum || c = '_'

/-- Helper: maximal word-character runs of a character list. -/
def wordRunsGo : List Char → List Char → List (List Char)
  | [], acc => if acc = [] then [] else [acc.reverse]
  | c :: rest, acc =>
      if isWordChar c then wordRunsGo rest (c :: acc)
      else if acc = [] then wordRunsGo rest []
      else acc.reverse :: wordRunsGo rest []

/-- Spec-side `tokens(s)`: the set of maximal alphanumeric/underscore
substrings of length ≥ 2 of the lowercased text (the spec's
`[a-zA-Z0-9_]{2,}` description). -/
def tokenize (s : String) : Finset String :=
  (((wordRunsGo (pyLower s).data []).filter fun r => 2 ≤ r.length).map String.mk).toFinset

/-- The `include` flags of a Chroma `collection.query` call. -/
structure QueryInclude where
  documents : Bool
  metadatas : Bool
  distances : Bool
  deriving DecidableEq, Repr

/-- One candidate of a Chroma reply: aligned entry of the `ids`,
`documents` and `metadatas` arrays. -/
structure QueryItem where
  id : String
  document : String
  meta : ChunkMetadata
  deriving DecidableEq, Repr

/-- A Chroma reply (single-query shape: the one inner list of each
field).  A `distances` entry is `none` when `float()` conversion of
the raw value would fail. -/
structure QueryReply where
  items : List QueryItem
  distances : Option (List (Option ℚ))
  deriving DecidableEq, Repr

/-- A Chroma collection, as the retriever uses it: a query function. -/
def Collection : Type := ℕ → QueryInclude → QueryReply

/-- Environment of one `retrieve` call: the collection looked up by
`indexer.get_collection(repo_id)` (`None` when absent) and the result
of `embedding_service.embed_batch([query])`. -/
structure RetrieverEnv where
  collection : Option Collection
  queryEmbedding : List (List ℚ)

/-- Chunk reconstruction from metadata + document
(`retriever.py`, the `Chunk(metadata=ChunkMetadata(...))` block). -/
def chunkOfItem (item : QueryItem) : Chunk :=
  ⟨⟨item.id, item.meta.repo_id, item.meta.file_path, item.meta.start_line,
    item.meta.end_line, item.meta.language, item.meta.chunk_type,
    item.meta.token_count⟩, item.document⟩

/-- Python `scored.sort(key=lambda item: item[0], reverse=True)` (how
the spec's `top k by score` is computed in Python): a stable
descending sort on the score. -/
def pyStableSortDesc (l : List (ℚ × Chunk)) : List (ℚ × Chunk) :=
  l.mergeSort fun a b => decide (b.1 ≤ a.1)

/-- `Retriever.retrieve`: `k = k or self.default_k or settings.top_k`
(`default_k = 8` at the module-level `Retriever()` instance, so the
`settings.top_k` fallback is dead); return `[]` when the collection
is missing or the query embedding batch is empty; otherwise query the
collection with `n_results = k` (documents, metadatas and distances
included — the `distances` read is commented out), return `[]` when
`results["ids"][0]` is empty, and otherwise rebuild and return every
returned candidate as a `Chunk`, in the collection's own order. -/
def retrieve (env : RetrieverEnv) (query : String) (k : ℕ) : List Chunk :=
  let keff := if k = 0 then 8 else k
  match env.collection with
  | none => []
  | some col =>
      if env.queryEmbedding.isEmpty then []
      else
        let results := col keff ⟨true, true, true⟩
        if results.items.isEmpty then []
        else results.items.map chunkOfItem

/-- Spec-side lexical score, written from the spec sentence
`lexical = |tokens(query) ∩ (tokens(content) ∪ tokens(file_path))| / max(1, |tokens(query)|)`. -/
def specLexical (query content file_path : String) : ℚ :=
  ((tokenize query ∩ (tokenize content ∪ tokenize file_path)).card : ℚ) /
    (max 1 (tokenize query).card : ℚ)

/-- Spec-side semantic score: `1/(1+distance)`, `0` when missing. -/
def specSemantic : Option ℚ → ℚ
  | some d => 1 / (1 + d)
  | none => 0

/-- Spec-side candidate scoring: `score = 0.7·lexical + 0.3·semantic`
for each candidate of a reply, paired with its reconstructed chunk. -/
def specScoredCandidates (query : String) (reply : QueryReply) : List (ℚ × Chunk) :=
  reply.items.enum.map fun p =>
    (0.7 * specLexical query p.2.document p.2.meta.file_path +
       0.3 * specSemantic ((reply.distances.getD []).get? p.1).join,
     chunkOfItem p.2)

end RetrieverM

/-! ## Indexer

From `backend/app/services/indexer.py` (`Indexer.index_repo`, the
copy the core app's `routes/repo.py` imports).  Its signature is
`index_repo(self, repo_id)`: there is no `force` parameter, and no
sidecar metadata is among its inputs.  The file selection, the file
reads that complete within the read budget, and the chunker output
are environment fields; the batch loop over `range(0, total_chunks,
self.batch_size)` is mirrored arithmetically, with the indexing time
budget modelled as the first loop iteration at which
`time.monotonic() - indexing_start >= self.time_budget_seconds` (the
break additionally requires `processed_chunks > 0`, so the first
batch always embeds).  The second component of the result counts
`embedding_service.embed_batch` invocations.
-/

namespace IndexerM

/-- The repository record fields `index_repo` reads. -/
structure RepoRecord where
  repo_id : String
  deriving DecidableEq, Repr

/-- The `index_repo` result dict.  `from_cache` models the optional
`"from_cache"` key: `none` when the returned dict has no such key
(every return statement of this function omits it). -/
structure IndexResult where
  indexed : Bool
  chunk_count : ℕ
  from_cache : Option Bool
  deriving DecidableEq, Repr

/-- Environment of one `index_repo` call. -/
structure IndexerEnv where
  /-- `repo_manager.get_repo(repo_id)`. -/
  repo : Option RepoRecord
  /-- `self._select_files_for_index(files)`. -/
  selectedFiles : List String
  /-- `chunker.chunk_repository(repo_id, file_contents)`: the chunk
  list (its stats are not modelled). -/
  chunks : List Chunk
  /-- `settings.index_batch_size` (the constructor takes `max(25, ·)`). -/
  index_batch_size : ℕ
  /-- `settings.index_max_chunks` (the constructor takes `max(500, ·)`). -/
  index_max_chunks : ℕ
  /-- First embed-loop iteration at which the elapsed time reaches
  `self.time_budget_seconds`; `none` when the budget never trips. -/
  budgetTripAt : Option ℕ

/-- `Indexer.index_repo(repo_id)`: raise `RepoManagerError` when the
repo is unknown; return `{indexed: True, chunk_count: 0}` when no
file is selected or no chunk is produced (after the `max_chunks`
cap); otherwise embed and insert the chunks in batches of
`batch_size`, breaking when the time budget is reached and at least
one batch is done, and return `{indexed: True, chunk_count:
processed, stats: ...}`.  No return carries a `from_cache` key.  The
second component counts `embed_batch` calls: one per executed batch
iteration. -/
def index_repo (env : IndexerEnv) : Except PyErr (IndexResult × ℕ) :=
  match env.repo with
  | none => .error ⟨"Repository not found"⟩
  | some _ =>
      if env.selectedFiles = [] then .ok (⟨true, 0, none⟩, 0)
      else
        let max_chunks := max 500 env.index_max_chunks
        let chunks := env.chunks.take max_chunks
        if chunks = [] then .ok (⟨true, 0, none⟩, 0)
        else
          let batch_size := max 25 env.index_batch_size
          let total := chunks.length
          let nbatches := (total + batch_size - 1) / batch_size
          let run :=
            match env.budgetTripAt with
            | none => nbatches
            | some t => min nbatches (max 1 t)
          let processed := min total (run * batch_size)
          .ok (⟨true, processed, none⟩, run)

end IndexerM

/-! ## Repository registry and status route

From `backend/app/models/repo.py` (`RepoInfo`, `RepoStatusResponse`),
`backend/app/services/repo_manager.py` (`RepoManager._load_registry`)
and `backend/app/routes/repo.py` (`get_repository_status`).

`RepoInfo` is a pydantic-v2 model; its declared field set is the one
of `models/repo.py` lines 47-58.  Pydantic raises `ValueError` on
assignment to an undeclared attribute and `AttributeError` on reading
one, which the embedding models with checks against the declared
field list.
-/

namespace RegistryM

/-- `RepoStats` (`models/repo.py`). -/
structure RepoStatsM where
  total_files : ℕ
  total_size_bytes : ℕ
  languages : List (String × ℕ)
  deriving DecidableEq, Repr

/-- `RepoInfo` (`models/repo.py` lines 47-58): exactly the declared
fields — note there is no `is_indexing` and no `index_*` progress
field. -/
structure RepoInfoModel where
  repo_id : String
  repo_name : String
  repo_url : String
  commit_hash : String
  branch : String
  local_path : String
  loaded_at : String
  stats : Option RepoStatsM
  indexed : Bool
  chunk_count : ℕ
  deriving DecidableEq, Repr

/-- The declared pydantic field names of `RepoInfo`. -/
def repoInfoFields : List String :=
  ["repo_id", "repo_name", "repo_url", "commit_hash", "branch",
   "local_path", "loaded_at", "stats", "indexed", "chunk_count"]

/-- Pydantic-v2 `__setattr__` on a `RepoInfo` instance: assigning to a
name that is not a declared field raises `ValueError`. -/
def pySetAttrCheck (name : String) : Except PyErr Unit :=
  if name ∈ repoInfoFields then .ok ()
  else .error ⟨"ValueError: RepoInfo object has no field " ++ name⟩

/-- Attribute read on a `RepoInfo` instance: reading a name that is
not a declared field raises `AttributeError`. -/
def pyGetAttrCheck (name : String) : Except PyErr Unit :=
  if name ∈ repoInfoFields then .ok ()
  else .error ⟨"AttributeError: RepoInfo object has no attribute " ++ name⟩

/-- One iteration of the `for repo_id, info in data.items()` loop of
`RepoManager._load_registry`: drop entries whose `local_path` is gone;
in ephemeral mode reset an indexed entry — the reset block assigns
`indexed`, `chunk_count`, then `is_indexing` and the `index_*`
progress fields, the latter being undeclared on `RepoInfo`. -/
def processRegistryEntry (use_persistent_index : Bool)
    (pathExists : String → Bool) (e : RepoInfoModel) :
    Except PyErr (Option RepoInfoModel) :=
  if pathExists e.local_path then
    if ¬use_persistent_index ∧ e.indexed then do
      _ ← pySetAttrCheck "indexed"
      _ ← pySetAttrCheck "chunk_count"
      _ ← pySetAttrCheck "is_indexing"
      _ ← pySetAttrCheck "index_progress_pct"
      _ ← pySetAttrCheck "index_processed_chunks"
      _ ← pySetAttrCheck "index_total_chunks"
      pure (some { e with indexed := false, chunk_count := 0 })
    else pure (some e)
  else pure none

/-- Loop runner for `_load_registry`: the whole loop sits in one
`try/except` that logs and returns on the first exception, keeping
the entries recovered so far. -/
def loadRegistryGo (use_persistent_index : Bool) (pathExists : String → Bool) :
    List RepoInfoModel → List (String × RepoInfoModel) → List (String × RepoInfoModel)
  | [], acc => acc
  | e :: rest, acc =>
      match processRegistryEntry use_persistent_index pathExists e with
      | .error _ => acc
      | .ok none => loadRegistryGo use_persistent_index pathExists rest acc
      | .ok (some r) =>
          loadRegistryGo use_persistent_index pathExists rest (acc ++ [(r.repo_id, r)])

/-- `RepoManager._load_registry`, given the parsed registry entries
(in file order) and the filesystem. -/
def load_registry (use_persistent_index : Bool) (pathExists : String → Bool)
    (entries : List RepoInfoModel) : List (String × RepoInfoModel) :=
  loadRegistryGo use_persistent_index pathExists entries []

/-- An HTTP-level error of a route: an `HTTPException`, or a `500`
produced by the global handler from an uncaught exception. -/
inductive RouteError where
  | http (code : ℕ) (detail : String)
  | internal (detail : String)
  deriving DecidableEq, Repr

/-- `RepoStatusResponse` (`models/repo.py` lines 71-79; pydantic
ignores constructor keywords that are not declared fields, so the
`is_indexing=` / `index_*=` keywords of the route would be dropped). -/
structure RepoStatusResponseM where
  repo_id : String
  repo_name : String
  repoExists : Bool
  indexed : Bool
  stats : Option RepoStatsM
  chunk_count : ℕ
  files : Option (List String)
  deriving DecidableEq, Repr

/-- Attribute read for the route, surfacing as the global 500. -/
def routeGetAttr (name : String) : Except RouteError Unit :=
  if name ∈ repoInfoFields then .ok ()
  else .error (.internal ("AttributeError: RepoInfo object has no attribute " ++ name))

/-- `get_repository_status` (`routes/repo.py` lines 64-98): 404 for an
unknown `repo_id`; otherwise build `RepoStatusResponse` — the keyword
arguments are evaluated left to right, each reading an attribute of
the `RepoInfo` record. -/
def get_repository_status (repo : Option RepoInfoModel) (include_files : Bool)
    (filesResult : Option (List String)) : Except RouteError RepoStatusResponseM :=
  match repo with
  | none => .error (.http 404 "Repository not found")
  | some info => do
      let files := if include_files then filesResult else none
      _ ← routeGetAttr "repo_id"
      _ ← routeGetAttr "repo_name"
      _ ← routeGetAttr "indexed"
      _ ← routeGetAttr "stats"
      _ ← routeGetAttr "chunk_count"
      _ ← routeGetAttr "is_indexing"
      _ ← routeGetAttr "index_progress_pct"
      _ ← routeGetAttr "index_processed_chunks"
      _ ← routeGetAttr "index_total_chunks"
      pure ⟨info.repo_id, info.repo_name, true, info.indexed, info.stats,
            info.chunk_count, files⟩

end RegistryM

/-! ## Generator

From `backend/app/services/generator.py` (`Generator.generate`).  The
call to `retriever.retrieve` happens before the `try` block (its
exceptions propagate); the LLM call and the JSON parse / repair /
post-process section sit inside the `try`, whose `except Exception`
returns a `GenerationResponse` with the error text in `plan` and no
diffs.  The LLM is the `llmResult` oracle; the parse / post-process
section (stdlib `json`, `re` and the change loop) is the `build`
oracle — any exception inside it is caught the same way.
-/

namespace GeneratorM

/-- `FileDiff` (`generator.py`). -/
structure FileDiff where
  file_path : String
  where_to_paste : Option String
  code : Option String
  content : Option String
  diff : String
  deriving DecidableEq, Repr

/-- `GenerationResponse` (`generator.py`). -/
structure GenerationResponse where
  plan : String
  patterns_followed : List String
  diffs : List FileDiff
  tests : String
  citations : List String
  paste_instructions : List String
  deriving DecidableEq, Repr

/-- Environment of one `Generator.generate` call. -/
structure GeneratorEnv where
  /-- `retriever.retrieve(repo_id, retrieval_query, k)` — evaluated
  before the `try` block. -/
  retrieveResult : Except PyErr (List Chunk)
  /-- `llm.chat_completion(messages, json_mode=True, max_tokens=4096)`. -/
  llmResult : Except PyErr String
  /-- The parse / repair / post-process section of the `try` body
  applied to the LLM response text. -/
  build : String → Except PyErr GenerationResponse

/-- The early return when retrieval finds nothing. -/
def noRelevantCodeResponse : GenerationResponse :=
  ⟨"I could not find any relevant code to modify. Please try a more specific request or ensure the repo is indexed.",
   [], [], "", [], []⟩

/-- The `except Exception` return: error text in `plan`, empty diffs. -/
def generationErrorResponse (e : PyErr) : GenerationResponse :=
  ⟨"Error analyzing code: " ++ e.msg, [], [], "", [], []⟩

/-- `Generator.generate`. -/
def generate (env : GeneratorEnv) : Except PyErr GenerationResponse :=
  match env.retrieveResult with
  | .error e => .error e
  | .ok chunks =>
      if chunks.isEmpty then .ok noRelevantCodeResponse
      else
        match (do let t ← env.llmResult; env.build t) with
        | .error e => .ok (generationErrorResponse e)
        | .ok resp => .ok resp

end GeneratorM

/-! ## Agent router

From `backend/app/services/agent_router.py`.  The two LLM routing
attempts (`provider_override="ollama_router"` then `"ollama"`) and the
`json.loads` + `RoutingDecision(**data)` parse are oracles; the
deterministic safety pre-filter and the keyword heuristic fallback are
translated in full.  The second component of `route`'s result counts
`llm.chat_completion` invocations.
-/

namespace RouterM

/-- `AgentAction` enum. -/
inductive AgentAction where
  | EXPLAIN | GENERATE | TEST | DECOMPOSE | REFUSE
  deriving DecidableEq, Repr

/-- `AgentAction.value` (the enum string). -/
def AgentAction.toStr : AgentAction → String
  | .EXPLAIN => "EXPLAIN"
  | .GENERATE => "GENERATE"
  | .TEST => "TEST"
  | .DECOMPOSE => "DECOMPOSE"
  | .REFUSE => "REFUSE"

/-- `RoutingDecision` pydantic model. -/
structure RoutingDecision where
  primary_action : AgentAction
  secondary_actions : List AgentAction := []
  reasoning : String
  confidence : ℚ
  should_decompose : Bool := false
  parallel_agents : List AgentAction := []
  skip_agents : List String := []
  deriving DecidableEq, Repr

/-- `AgentRouter.REFUSE_PATTERNS`. -/
def REFUSE_PATTERNS : List String :=
  ["delete prod", "drop database", "rm -rf", "format disk", "wipe",
   "dump password", "steal credential", "extract secret", "api key",
   "show all passwords", "dump users", "leak token", "exfiltrate",
   "exploit", "vulnerability exploit", "malicious", "backdoor",
   "inject payload", "reverse shell", "keylogger", "ransomware",
   "sql injection", "xss attack", "csrf attack", "privilege escalation",
   "bypass auth", "bypass security", "disable security", "disable auth",
   "circumvent", "evade detection",
   "hack into", "brute force", "ddos", "denial of service", "phishing",
   "social engineer", "spoof", "man in the middle"]

/-- `AgentRouter.DECOMPOSE_MARKERS` (regex patterns: all literal
except `"how does.*work together"`). -/
def DECOMPOSE_MARKERS : List String :=
  ["architecture", "flow", "end-to-end", "across", "interaction",
   "dependency", "dependencies", "compare", "tradeoff", "refactor",
   "security", "performance", "multi", "overview", "entire",
   "all the", "how does.*work together", "walk me through",
   "step by step", "trace the", "full pipeline", "whole system"]

/-- `AgentRouter._is_unsafe_query`: the lowercased query contains some
REFUSE pattern as a substring. -/
def is_unsafe_query (query : String) : Bool :=
  REFUSE_PATTERNS.any fun p => pyIn p (pyLower query)

/-- Remainder of the haystack after the first occurrence of `p`
(`none` when `p` does not occur). -/
def searchFrom (p : List Char) : List Char → Option (List Char)
  | [] => if p.isEmpty then some [] else none
  | c :: rest =>
      if p.isPrefixOf (c :: rest) then some ((c :: rest).drop p.length)
      else searchFrom p rest

/-- Sequential search of literal segments (left to right). -/
def seqSearch : List (List Char) → List Char → Bool
  | [], _ => true
  | p :: ps, hay =>
      match searchFrom p hay with
      | some rest => seqSearch ps rest
      | none => false

/-- `re.search(marker, q)` for the marker patterns of this router:
literal text possibly joined by `.*` (matching iff the literal
segments occur in order). -/
def markerSearch (marker q : String) : Bool :=
  seqSearch ((marker.splitOn ".*").map String.data) q.data

/-- The generation keywords of `_heuristic_route`. -/
def gen_keywords : List String :=
  ["add", "create", "implement", "build", "write code", "generate",
   "refactor", "modify", "change", "proceed", "go ahead", "make the code",
   "generate the code", "create the code", "original request"]

/-- The test keywords of `_heuristic_route`. -/
def test_keywords : List String := ["test", "pytest", "unittest", "write tests"]

/-- `AgentRouter._heuristic_route`. -/
def heuristic_route (query : String) : RoutingDecision :=
  let q := pyLower query
  if is_unsafe_query query then
    { primary_action := .REFUSE, reasoning := "Unsafe operation detected",
      confidence := 0.95 }
  else if test_keywords.any fun kw => pyIn kw q then
    { primary_action := .TEST, reasoning := "Test generation request",
      confidence := 0.9 }
  else if gen_keywords.any fun kw => pyIn kw q then
    { primary_action := .GENERATE, secondary_actions := [.TEST],
      parallel_agents := [.TEST],
      reasoning := "Code generation with parallel test gen", confidence := 0.85 }
  else if (DECOMPOSE_MARKERS.any fun m => markerSearch m q) ∧ (pySplit q).length > 8 then
    { primary_action := .DECOMPOSE, secondary_actions := [.EXPLAIN],
      should_decompose := true,
      reasoning := "Complex query with architecture/multi-component markers",
      confidence := 0.8 }
  else if (pySplit q).length > 20 then
    { primary_action := .DECOMPOSE, secondary_actions := [.EXPLAIN],
      should_decompose := true,
      reasoning := "Complex query needs decomposition (length heuristic)",
      confidence := 0.7 }
  else
    { primary_action := .EXPLAIN, reasoning := "Simple Q&A", confidence := 0.8,
      skip_agents := ["GENERATE", "TEST", "DECOMPOSE"] }

/-- LLM-side environment of one `route` call. -/
structure RouterLlmEnv where
  /-- `llm.chat_completion(..., provider_override="ollama_router")`. -/
  routerTierResponse : Except PyErr String
  /-- `llm.chat_completion(..., provider_override="ollama")`. -/
  mainTierResponse : Except PyErr String
  /-- `json.loads(response)` + `RoutingDecision(**data)` (`none` when
  either raises). -/
  parseDecision : String → Option RoutingDecision

/-- The refusal the deterministic pre-filter returns. -/
def prefilterRefusal : RoutingDecision :=
  { primary_action := .REFUSE,
    reasoning := "Query matched safety filter (pre-routing check)",
    confidence := 0.99 }

/-- Second routing attempt (1.5b tier) and heuristic fallback; the
`calls` argument is the number of LLM calls already made. -/
def routeAttempt2 (env : RouterLlmEnv) (query : String) (calls : ℕ) :
    RoutingDecision × ℕ :=
  match env.mainTierResponse with
  | .ok resp =>
      match env.parseDecision resp with
      | some d => (d, calls + 1)
      | none => (heuristic_route query, calls + 1)
  | .error _ => (heuristic_route query, calls + 1)

/-- `AgentRouter.route`: unsafe queries are refused before any LLM
call; otherwise the 0.5b router tier, then the 1.5b tier, then the
keyword heuristic. -/
def route (env : RouterLlmEnv) (query : String) : RoutingDecision × ℕ :=
  if is_unsafe_query query then (prefilterRefusal, 0)
  else
    match env.routerTierResponse with
    | .ok resp =>
        match env.parseDecision resp with
        | some d => (d, 1)
        | none => routeAttempt2 env query 1
    | .error _ => routeAttempt2 env query 1

end RouterM

/-! ## Smart orchestrator endpoint

From `backend/app/routes/chat.py` (`smart_chat`, lines 542-754), with
the agent pipelines (`_run_explain` / `_run_generate` / `_run_test`),
the evaluator and the response cache as environment oracles.  The
phase-A `asyncio.gather(..., return_exceptions=True)` turns task
exceptions into `{"error": str}` dict fields; the overlapped phase
B+C gather does the same for the evaluator and the speculative test —
except that when no test task exists the evaluator is awaited bare
and its exception escapes to the route's `try`, becoming a 500.
-/

namespace SmartM

open RouterM GeneratorM

/-- The dict `_run_explain` returns (its `assumptions` and
`subquestions` keys are carried but never read by `smart_chat`). -/
structure ExplainOut where
  answer : String
  citations : List String
  confidence : String
  deriving DecidableEq, Repr

/-- `result["explain"]`: the pipeline dict or the `{"error": str}`
dict the gather wrapper records. -/
inductive ExplainField where
  | ok (e : ExplainOut)
  | failed (err : String)
  deriving DecidableEq, Repr

/-- `result["generate"]`: model-dumped `GenerationResponse` or error dict. -/
inductive GenField where
  | ok (g : GenerationResponse)
  | failed (err : String)
  deriving DecidableEq, Repr

/-- `result["generate"].get("diffs", [])`. -/
def diffsOfGenField : GenField → List FileDiff
  | .ok g => g.diffs
  | .failed _ => []

/-- `result["generate"].get("plan", "Code generation completed.")`. -/
def planOfGenField : GenField → String
  | .ok g => g.plan
  | .failed _ => "Code generation completed."

/-- An `improved_code_by_file` entry of the controller verdict. -/
structure ImprovedFile where
  file_path : String
  code : String
  deriving DecidableEq, Repr

/-- `ControllerVerdict` (`backend/app/services/evaluator.py`). -/
structure ControllerOut where
  decision : String
  reasoning : String
  final_score : ℚ
  confidence : ℚ
  merged_issues : List String
  priority_fixes : List String
  improved_code_by_file : List ImprovedFile
  deriving DecidableEq, Repr

/-- `LLMVsLLMResult` (`evaluator.py`): reviewer payloads are opaque. -/
structure EvalOut where
  enabled : Bool
  critic : Option String
  defender : Option String
  controller : ControllerOut
  deriving DecidableEq, Repr

/-- `result["evaluation"]`: the dumped payload, the error dict of a
failed evaluator task, or the disabled stub for empty diffs. -/
inductive EvalField where
  | payload (ev : EvalOut)
  | failed (err : String)
  | disabled (reason : String)
  deriving DecidableEq, Repr

/-- `result["test"]`: the test-generator dict (opaque payload), the
error dict, or the skip marker `{skipped: True, reason: ...}`. -/
inductive TestField where
  | ran (payload : String)
  | failed (err : String)
  | skipped (reason : String)
  deriving DecidableEq, Repr

/-- The orchestrator result dict. -/
structure SmartResult where
  routing : RoutingDecision
  agents_used : List String
  agents_skipped : List String
  explain : Option ExplainField := none
  generate : Option GenField := none
  evaluation : Option EvalField := none
  evaluation_action : Option String := none
  evaluation_improved_code : Option (List ImprovedFile) := none
  test : Option TestField := none
  answer : String := ""
  citations : Option (List String) := none
  confidence : String := ""
  cache_repo_id : Option String := none
  from_cache : Bool := false
  deriving DecidableEq, Repr

/-- Environment of one `smart_chat` call. -/
structure SmartEnv where
  /-- Router LLM oracles (consulted on a routing-cache miss). -/
  llm : RouterLlmEnv
  /-- `response_cache.get_response(repo_id, question, commit_hash)`. -/
  cachedResponse : Option SmartResult
  /-- `response_cache.get_routing(question)`. -/
  cachedRouting : Option RoutingDecision
  /-- Outcome of the `_run_explain` task. -/
  explainOutcome : Except PyErr ExplainOut
  /-- Outcome of the `_run_generate` task. -/
  generateOutcome : Except PyErr GenerationResponse
  /-- Outcome of `evaluator.evaluate_generation(...)`. -/
  evalOutcome : Except PyErr EvalOut
  /-- Outcome of the `_run_test` task. -/
  testOutcome : Except PyErr String

/-- Helper for `pyDedup`, carrying the keys seen so far. -/
def pyDedupGo : List String → List String → List String
  | [], _ => []
  | x :: xs, seen =>
      if x ∈ seen then pyDedupGo xs seen else x :: pyDedupGo xs (x :: seen)

/-- `list(dict.fromkeys(xs))`: deduplicate keeping first occurrences. -/
def pyDedup (l : List String) : List String := pyDedupGo l []

/-- `result["explain"].get("answer", "")`. -/
def answerOfExplain : ExplainField → String
  | .ok e => e.answer
  | .failed _ => ""

/-- `result["explain"].get("citations", [])`. -/
def citationsOfExplain : ExplainField → List String
  | .ok e => e.citations
  | .failed _ => []

/-- `result["explain"].get("confidence", "medium")`. -/
def confidenceOfExplain : ExplainField → String
  | .ok e => e.confidence
  | .failed _ => "medium"

/-- The tail of `smart_chat` (lines 725-750): recompute `agents_used`
from the routing decision (deduplicated), promote a top-level answer,
and tag the result for the cache store. -/
def finalize (repo_id : String) (decision : RoutingDecision) (r : SmartResult) :
    SmartResult :=
  let used := pyDedup ([decision.primary_action.toStr] ++
    decision.secondary_actions.map AgentAction.toStr ++
    decision.parallel_agents.map AgentAction.toStr)
  let r := { r with agents_used := used }
  let r :=
    match r.explain with
    | some ef =>
        { r with answer := answerOfExplain ef,
                 citations := some (citationsOfExplain ef),
                 confidence := confidenceOfExplain ef }
    | none =>
        match r.generate with
        | some gf => { r with answer := planOfGenField gf, confidence := "high" }
        | none => { r with answer := "Request processed.", confidence := "medium" }
  { r with cache_repo_id := some repo_id }

/-- Phases B and C of `smart_chat` (lines 644-723), applied to the
base result after phase A.  Returns the updated result, or the
uncaught evaluator exception of the bare-`await` branch. -/
def phaseBC (env : SmartEnv) (wantsTest : Bool) (r : SmartResult) :
    Except PyErr SmartResult :=
  match r.generate with
  | some gf =>
      if diffsOfGenField gf ≠ [] then
        if wantsTest then
          -- asyncio.gather(eval_coro, test_coro, return_exceptions=True)
          let evalField : EvalField :=
            match env.evalOutcome with
            | .error e => .failed e.msg
            | .ok ev => .payload ev
          let allows : Bool :=
            match env.evalOutcome with
            | .ok ev => ¬ev.controller.decision = "REQUEST_REVISION"
            | .error _ => true
          let evalAction : Option String :=
            match env.evalOutcome with
            | .ok ev =>
                if ev.controller.decision = "REQUEST_REVISION" then
                  some "revision_recommended"
                else none
            | .error _ => none
          let improved : Option (List ImprovedFile) :=
            match env.evalOutcome with
            | .ok ev =>
                if ev.controller.decision = "MERGE_FEEDBACK" ∧
                    ev.controller.improved_code_by_file ≠ [] then
                  some ev.controller.improved_code_by_file
                else none
            | .error _ => none
          if allows then
            .ok { r with evaluation := some evalField,
                         evaluation_action := evalAction,
                         evaluation_improved_code := improved,
                         test := some (match env.testOutcome with
                           | .ok t => .ran t
                           | .error e => .failed e.msg) }
          else
            .ok { r with evaluation := some evalField,
                         evaluation_action := evalAction,
                         evaluation_improved_code := improved,
                         test := some (.skipped
                           "Evaluation recommended revision — speculative test discarded."),
                         agents_skipped := r.agents_skipped ++ ["TEST"] }
        else
          -- eval_res = await eval_coro (no gather wrapper): an
          -- evaluator exception escapes to the route try → 500
          match env.evalOutcome with
          | .error e => .error e
          | .ok ev =>
              let evalAction : Option String :=
                if ev.controller.decision = "REQUEST_REVISION" then
                  some "revision_recommended"
                else none
              let improved : Option (List ImprovedFile) :=
                if ev.controller.decision = "MERGE_FEEDBACK" ∧
                    ev.controller.improved_code_by_file ≠ [] then
                  some ev.controller.improved_code_by_file
                else none
              .ok { r with evaluation := some (.payload ev),
                           evaluation_action := evalAction,
                           evaluation_improved_code := improved }
      else
        .ok { r with
              evaluation := some (.disabled "No generated diffs available for evaluation.") }
  | none =>
      if wantsTest then
        .ok { r with test := some (match env.testOutcome with
          | .ok t => .ran t
          | .error e => .failed e.msg) }
      else .ok r

/-- `EXPLAIN` requested: primary or secondary. -/
abbrev wantsExplainOf (d : RoutingDecision) : Prop :=
  d.primary_action = .EXPLAIN ∨ .EXPLAIN ∈ d.secondary_actions

/-- `GENERATE` requested: primary or secondary. -/
abbrev wantsGenerateOf (d : RoutingDecision) : Prop :=
  d.primary_action = .GENERATE ∨ .GENERATE ∈ d.secondary_actions

/-- `TEST` requested: primary, secondary or parallel
(`wants_test = True` in the source). -/
abbrev wantsTestOf (d : RoutingDecision) : Prop :=
  d.primary_action = .TEST ∨ .TEST ∈ d.secondary_actions ∨
    .TEST ∈ d.parallel_agents

/-- The decompose-explain task condition. -/
abbrev decomposeExplainOf (d : RoutingDecision) : Prop :=
  d.primary_action = .DECOMPOSE ∨ d.should_decompose = true

/-- An explain task ends up in the phase-A map: requested, or the
decompose variant, or the fallback when the map would be empty and no
test was requested. -/
abbrev hasExplainTaskOf (d : RoutingDecision) : Prop :=
  wantsExplainOf d ∨ decomposeExplainOf d ∨
    ((¬wantsExplainOf d ∧ ¬wantsGenerateOf d ∧ ¬decomposeExplainOf d) ∧
      ¬wantsTestOf d)

/-- The base result with the phase-A task outcomes recorded
(lines 588-642: routing metadata, then the gather over the task map
with per-task exceptions becoming `{"error": str}` fields). -/
def phaseAResult (env : SmartEnv) (d : RoutingDecision) : SmartResult :=
  { routing := d,
    agents_used := [d.primary_action.toStr],
    agents_skipped := d.skip_agents,
    explain :=
      if hasExplainTaskOf d then
        some (match env.explainOutcome with
          | .ok e => .ok e
          | .error e => .failed e.msg)
      else none,
    generate :=
      if wantsGenerateOf d then
        some (match env.generateOutcome with
          | .ok g => .ok g
          | .error e => .failed e.msg)
      else none }

/-- The non-refusal path of `smart_chat`: phase A, phases B+C, then
the finalisation tail. -/
def smartMain (env : SmartEnv) (repo_id : String) (d : RoutingDecision) :
    Except PyErr SmartResult :=
  match phaseBC env (decide (wantsTestOf d)) (phaseAResult env d) with
  | .error e => .error e
  | .ok r => .ok (finalize repo_id d r)

/-- Step 1 of `smart_chat`: the routing decision, from the routing
cache when present, else from `agent_router.route`. -/
def decisionOf (env : SmartEnv) (question : String) : RoutingDecision :=
  match env.cachedRouting with
  | some d => d
  | none => (route env.llm question).1

/-- `smart_chat` (`routes/chat.py` lines 542-754). -/
def smart_chat (env : SmartEnv) (repo_id question : String) :
    Except PyErr SmartResult :=
  match env.cachedResponse with
  | some cached => .ok { cached with from_cache := true }
  | none =>
      if (decisionOf env question).primary_action = .REFUSE then
        .ok { routing := decisionOf env question,
              agents_used := [(decisionOf env question).primary_action.toStr],
              agents_skipped := (decisionOf env question).skip_agents,
              answer := "I cannot safely process this request.",
              confidence := "low" }
      else smartMain env repo_id (decisionOf env question)

end SmartM

/-! ## Mock embedder

From `backend/app/utils/embeddings.py`
(`EmbeddingService._get_mock_embeddings`).  `zlib.crc32` over the
UTF-8 bytes of a token and the `hashlib.sha256` hex digest used for
the empty-text fallback token are uninterpreted function parameters.
The float32 accumulation is exact here (signed unit increments, at
most 256 of them); the final L2-normalisation is modelled over ℝ.
-/

namespace MockEmbedM

/-- `token.encode("utf-8", errors="ignore")`. -/
def utf8Bytes (s : String) : List ℕ := s.toUTF8.data.toList.map (·.toNat)

/-- The token list of one text: whitespace split, the sha256 hex
digest of the whole text when empty, capped at `token_cap = 256`. -/
def mockTokens (sha256hex : String → String) (text : String) : List String :=
  let tokens := pySplit text
  (if tokens = [] then [sha256hex text] else tokens).take 256

/-- One iteration of the token loop: `h = crc32(bytes)`,
`idx = h % dim`, `sign = 1.0 if (h & 1) else -1.0`,
`vector[idx] += sign`. -/
def addToken (crc32 : List ℕ → ℕ) (dim : ℕ) (v : List ℤ) (token : String) :
    List ℤ :=
  let h := crc32 (utf8Bytes token)
  let idx := h % dim
  let sign : ℤ := if h % 2 = 1 then 1 else -1
  v.set idx (v.getD idx 0 + sign)

/-- The accumulated (pre-normalisation) vector of one text. -/
def mockRawVector (crc32 : List ℕ → ℕ) (sha256hex : String → String)
    (dim : ℕ) (text : String) : List ℤ :=
  (mockTokens sha256hex text).foldl (addToken crc32 dim) (List.replicate dim 0)

/-- `norm = np.linalg.norm(vector); if norm > 0: vector = vector / norm`. -/
noncomputable def l2normalize (v : List ℤ) : List ℝ :=
  let nsq : ℤ := (v.map fun x => x * x).sum
  if nsq = 0 then v.map fun x => (x : ℝ)
  else v.map fun x => (x : ℝ) / Real.sqrt (nsq : ℝ)

/-- `EmbeddingService._get_mock_embeddings`. -/
noncomputable def get_mock_embeddings (crc32 : List ℕ → ℕ)
    (sha256hex : String → String) (dim : ℕ) (texts : List String) :
    List (List ℝ) :=
  texts.map fun t => l2normalize (mockRawVector crc32 sha256hex dim t)

/-- Spec-side construction of the signed hash vector, written from the
spec sentence (sign trick: `index = crc32 mod dim`, sign from the low
bit): entry `j` is the sum of the token signs that hash to `j`. -/
def specSignVector (crc32 : List ℕ → ℕ) (dim : ℕ) (tokens : List String) :
    List ℤ :=
  (List.range dim).map fun j =>
    (tokens.map fun tok =>
      let h := crc32 (utf8Bytes tok)
      if h % dim = j then (if h % 2 = 1 then (1 : ℤ) else -1) else 0).sum

/-- Spec-side per-text embedding: hash tokens via CRC32 into a
fixed-dimension vector using the sign trick, then L2-normalize. -/
noncomputable def spec_mock_embedding (crc32 : List ℕ → ℕ)
    (sha256hex : String → String) (dim : ℕ) (text : String) : List ℝ :=
  l2normalize (specSignVector crc32 dim (mockTokens sha256hex text))

end MockEmbedM

/-! ## Sample inputs used by the closed evaluations and witnesses -/

/-- A registry entry of an indexed repository, as `_save_registry`
writes it. -/
def sampleIndexedEntry : RegistryM.RepoInfoModel :=
  { repo_id := "a1b2c3d4e5f6", repo_name := "demo",
    repo_url := "https://github.com/octocat/demo", commit_hash := "c0ffee42",
    branch := "main", local_path := "/data/demo/c0ffee42",
    loaded_at := "2026-10-12T00:00:00", stats := some ⟨3, 1024, [("py", 3)]⟩,
    indexed := true, chunk_count := 42 }

/-- A loaded repository record as `load_repo` constructs it. -/
def sampleLoadedRepo : RegistryM.RepoInfoModel :=
  { repo_id := "0fb3d1a9c77e", repo_name := "hello",
    repo_url := "https://github.com/octocat/Hello-World",
    commit_hash := "7fd1a60b01f9", branch := "master",
    local_path := "/data/hello/7fd1a60b", loaded_at := "2026-10-12T00:00:00",
    stats := some ⟨1, 13, [("md", 1)]⟩, indexed := false, chunk_count := 0 }

/-- A generator environment in which the vector-store query of the
retrieval step raises (e.g. Chroma's dimensionality mismatch after an
embedding-provider change). -/
def generatorCrashingEnv : GeneratorM.GeneratorEnv :=
  { retrieveResult := .error ⟨"InvalidDimensionException: query dimensionality mismatch"⟩,
    llmResult := .ok "",
    build := fun _ => .ok GeneratorM.noRelevantCodeResponse }

/-- A collection that records the requested `n_results` in the single
returned candidate's `start_line`, making the code's request size
observable in its output. -/
def c1Col : RetrieverM.Collection := fun n _ =>
  { items := [⟨"id1", "def login(): pass", ⟨"id1", "r", "src/auth.py", n, n, "python", "code", 25⟩⟩],
    distances := some [some (1/2)] }

/-- A retriever environment over `c1Col`. -/
def c1Env : RetrieverM.RetrieverEnv := ⟨some c1Col, [[1]]⟩

/-- An evaluator verdict recommending revision. -/
def c5EvalOut : SmartM.EvalOut :=
  ⟨true, none, none,
    ⟨"REQUEST_REVISION", "Needs fixes first", 4, 1,
      ["validation missing"], ["add validation"], []⟩⟩

/-- A smart-endpoint environment: routing `GENERATE` with parallel
`TEST`, a generate result with one diff, and a `REQUEST_REVISION`
evaluator verdict. -/
def c5Env : SmartM.SmartEnv :=
  { llm := ⟨.error ⟨"llm down"⟩, .error ⟨"llm down"⟩, fun _ => none⟩,
    cachedResponse := none,
    cachedRouting := some
      { primary_action := .GENERATE, secondary_actions := [.TEST],
        reasoning := "Generate and test", confidence := 1,
        parallel_agents := [.TEST] },
    explainOutcome := .error ⟨"no explain"⟩,
    generateOutcome := .ok
      ⟨"plan", [], [⟨"svc.py", none, some "x", none, "+x"⟩], "tests",
        ["svc.py"], []⟩,
    evalOutcome := .ok c5EvalOut,
    testOutcome := .ok "test payload" }

/-- The smart-endpoint result of `c5Env`. -/
def c5Result : SmartM.SmartResult :=
  { routing :=
      { primary_action := .GENERATE, secondary_actions := [.TEST],
        reasoning := "Generate and test", confidence := 1,
        parallel_agents := [.TEST] },
    agents_used := ["GENERATE", "TEST"],
    agents_skipped := ["TEST"],
    explain := none,
    generate := some (.ok
      ⟨"plan", [], [⟨"svc.py", none, some "x", none, "+x"⟩], "tests",
        ["svc.py"], []⟩),
    evaluation := some (.payload c5EvalOut),
    evaluation_action := some "revision_recommended",
    evaluation_improved_code := none,
    test := some (.skipped
      "Evaluation recommended revision — speculative test discarded."),
    answer := "plan",
    citations := none,
    confidence := "high",
    cache_repo_id := some "repo-x",
    from_cache := false }

/-! ## Theorems -/

/-- C2 (code-side divergence): the indexer copy the core app imports
never returns a `from_cache` key (every `ok` result has
`from_cache = none`), and whenever the repository exists, files were
selected and chunking produced work, it makes at least one
`embed_batch` call — there is no sidecar-freshness shortcut (the
sidecar metadata is not even an input of the function). -/
theorem indexer_backend_no_freshness_shortcut :
    (∀ (env : IndexerM.IndexerEnv) (r : IndexerM.IndexResult × ℕ),
        IndexerM.index_repo env = .ok r → r.1.from_cache = none) ∧
    (∀ (env : IndexerM.IndexerEnv) (r : IndexerM.IndexResult × ℕ),
        env.repo.isSome = true → env.selectedFiles ≠ [] →
        env.chunks.take (max 500 env.index_max_chunks) ≠ [] →
        IndexerM.index_repo env = .ok r → 1 ≤ r.2) := by
  constructor
  · intro env r h
    rcases henv : env.repo with _ | repo
    · simp [IndexerM.index_repo, henv] at h
    · simp only [IndexerM.index_repo, henv] at h
      split at h
      · simp only [Except.ok.injEq] at h
        subst h; rfl
      · split at h
        · simp only [Except.ok.injEq] at h
          subst h; rfl
        · simp only [Except.ok.injEq] at h
          subst h; rfl
  · intro env r hrepo hsel hch h
    rcases henv : env.repo with _ | repo
    · rw [henv] at hrepo; exact absurd hrepo (by simp)
    · simp only [IndexerM.index_repo, henv] at h
      rw [if_neg hsel, if_neg hch] at h
      have htot : 1 ≤ (env.chunks.take (max 500 env.index_max_chunks)).length := by
        rcases hl : env.chunks.take (max 500 env.index_max_chunks) with _ | ⟨a, l⟩
        · exact absurd hl hch
        · simp [hl]
      have hbs : 25 ≤ max 25 env.index_batch_size := le_max_left _ _
      have hnb : 1 ≤ ((env.chunks.take (max 500 env.index_max_chunks)).length +
          max 25 env.index_batch_size - 1) / max 25 env.index_batch_size := by
        rw [Nat.one_le_div_iff (by omega)]
        omega
      rcases hbt : env.budgetTripAt with _ | t <;> rw [hbt] at h <;>
        simp only [Except.ok.injEq] at h <;> subst h
      · exact hnb
      · exact le_min hnb (by omega)

/-- C3 (code bug): rehydrating the registry in ephemeral mode with an
indexed entry does not reset `indexed` — the reset block assigns the
undeclared `is_indexing` field of `RepoInfo`, pydantic raises
`ValueError`, the surrounding `try` swallows it and the entry (and
everything after it) is dropped.  In persistent mode the entry round
trips unchanged, and an entry whose `local_path` is gone is dropped. -/
theorem registry_rehydrate_reset_crashes :
    RegistryM.load_registry false (fun _ => true) [sampleIndexedEntry] = [] ∧
    RegistryM.load_registry false (fun _ => true) [sampleIndexedEntry] ≠
      [(sampleIndexedEntry.repo_id,
        { sampleIndexedEntry with indexed := false, chunk_count := 0 })] ∧
    RegistryM.processRegistryEntry false (fun _ => true) sampleIndexedEntry =
      .error ⟨"ValueError: RepoInfo object has no field is_indexing"⟩ ∧
    RegistryM.load_registry true (fun _ => true) [sampleIndexedEntry] =
      [(sampleIndexedEntry.repo_id, sampleIndexedEntry)] ∧
    RegistryM.load_registry false (fun _ => false) [sampleIndexedEntry] = [] := by
  decide

/-- C4 (code bug): for a known repository the status route always
raises — building `RepoStatusResponse` reads `repo_info.is_indexing`,
which is not a declared `RepoInfo` field, so pydantic raises
`AttributeError` and the global handler returns a 500; only an
unknown `repo_id` yields the 404 branch. -/
theorem repo_status_known_repo_internal_error :
    RegistryM.get_repository_status (some sampleLoadedRepo) false none =
      .error (.internal "AttributeError: RepoInfo object has no attribute is_indexing") ∧
    (∀ resp, RegistryM.get_repository_status (some sampleLoadedRepo) false none ≠ .ok resp) ∧
    RegistryM.get_repository_status none false none =
      .error (.http 404 "Repository not found") := by
  refine ⟨by decide, ?_, by decide⟩
  intro resp h
  have : Except.error (RegistryM.RouteError.internal
      "AttributeError: RepoInfo object has no attribute is_indexing") =
      (Except.ok resp : Except RegistryM.RouteError RegistryM.RepoStatusResponseM) := by
    rw [← h]; decide
  exact absurd this (by simp)

/-- C6: a query whose lowercase text contains a REFUSE pattern is
routed to `REFUSE` with confidence `0.99 ≥ 0.95` by the deterministic
pre-filter, with zero LLM calls. -/
theorem router_prefilter_refuses_without_llm
    (env : RouterM.RouterLlmEnv) (query : String)
    (h : ∃ p ∈ RouterM.REFUSE_PATTERNS, pyIn p (pyLower query) = true) :
    RouterM.route env query = (RouterM.prefilterRefusal, 0) ∧
    RouterM.prefilterRefusal.primary_action = RouterM.AgentAction.REFUSE ∧
    RouterM.prefilterRefusal.confidence = 0.99 ∧
    (0.95 : ℚ) ≤ RouterM.prefilterRefusal.confidence := by
  have hunsafe : RouterM.is_unsafe_query query = true := by
    rcases h with ⟨p, hp, hin⟩
    simp only [RouterM.is_unsafe_query, List.any_eq_true]
    exact ⟨p, hp, hin⟩
  refine ⟨?_, rfl, rfl, by norm_num [RouterM.prefilterRefusal]⟩
  simp [RouterM.route, hunsafe]

/-- Witness for C6 at the concrete query
`"please rm -rf the server"`. -/
theorem router_prefilter_refuses_without_llm_witness :
    RouterM.route ⟨.error ⟨"llm down"⟩, .error ⟨"llm down"⟩, fun _ => none⟩
      "please rm -rf the server" = (RouterM.prefilterRefusal, 0) :=
  (router_prefilter_refuses_without_llm _ _ ⟨"rm -rf", by decide, by decide⟩).1

/-- C7 counterexample: an exception raised by the retrieval step
(which runs before the `try` block of `Generator.generate`)
propagates out of `generate` instead of being turned into an
error-plan `GenerationResponse`. -/
theorem generator_retrieval_exception_escapes :
    GeneratorM.generate generatorCrashingEnv =
      .error ⟨"InvalidDimensionException: query dimensionality mismatch"⟩ := rfl

/-- C7 (amended): when the retrieval step itself does not raise,
`generate` never raises, and any exception inside the `try` body (the
LLM call or the parse / post-process section) yields a
`GenerationResponse` with empty diffs and the error text in `plan`. -/
theorem generator_try_block_error_contract
    (env : GeneratorM.GeneratorEnv) (chunks : List Chunk)
    (hr : env.retrieveResult = .ok chunks) :
    (∃ resp, GeneratorM.generate env = .ok resp) ∧
    (∀ e : PyErr, chunks ≠ [] →
      (do let t ← env.llmResult; env.build t) = .error e →
      GeneratorM.generate env = .ok (GeneratorM.generationErrorResponse e) ∧
      (GeneratorM.generationErrorResponse e).diffs = [] ∧
      (GeneratorM.generationErrorResponse e).plan = "Error analyzing code: " ++ e.msg) := by
  constructor
  · unfold GeneratorM.generate
    rw [hr]
    by_cases hc : chunks.isEmpty
    · exact ⟨GeneratorM.noRelevantCodeResponse, by simp [hc]⟩
    · rcases hb : (do let t ← env.llmResult; env.build t) with e | resp
      · exact ⟨GeneratorM.generationErrorResponse e, by simp [hc, hb]⟩
      · exact ⟨resp, by simp [hc, hb]⟩
  · intro e hne hb
    refine ⟨?_, rfl, rfl⟩
    unfold GeneratorM.generate
    rw [hr]
    simp [List.isEmpty_iff, hne, hb]

/-- Witness for C7's amended theorem at a concrete environment whose
LLM call raises. -/
theorem generator_try_block_error_contract_witness :
    GeneratorM.generate
      { retrieveResult := .ok [⟨⟨"id", "r", "a.py", 1, 2, "python", "code", 3⟩, "x"⟩],
        llmResult := .error ⟨"ReadTimeout"⟩,
        build := fun _ => .ok GeneratorM.noRelevantCodeResponse } =
      .ok (GeneratorM.generationErrorResponse ⟨"ReadTimeout"⟩) ∧
    (GeneratorM.generationErrorResponse ⟨"ReadTimeout"⟩).diffs = [] := by
  have thm := generator_try_block_error_contract
    { retrieveResult := .ok [⟨⟨"id", "r", "a.py", 1, 2, "python", "code", 3⟩, "x"⟩],
      llmResult := .error ⟨"ReadTimeout"⟩,
      build := fun _ => .ok GeneratorM.noRelevantCodeResponse }
    [⟨⟨"id", "r", "a.py", 1, 2, "python", "code", 3⟩, "x"⟩] rfl
  exact ⟨(thm.2 ⟨"ReadTimeout"⟩ (by decide) rfl).1,
         (thm.2 ⟨"ReadTimeout"⟩ (by decide) rfl).2.1⟩

/-- The finalisation tail only recomputes `agents_used`, the promoted
answer fields and the cache tag: routing, evaluation, test and
`agents_skipped` pass through unchanged. -/
theorem SmartM.finalize_preserves (repo_id : String) (d : RouterM.RoutingDecision)
    (r : SmartM.SmartResult) :
    (SmartM.finalize repo_id d r).routing = r.routing ∧
    (SmartM.finalize repo_id d r).test = r.test ∧
    (SmartM.finalize repo_id d r).evaluation = r.evaluation ∧
    (SmartM.finalize repo_id d r).agents_skipped = r.agents_skipped := by
  unfold SmartM.finalize
  rcases he : r.explain with _ | ef
  · rcases hg : r.generate with _ | gf <;> simp [he, hg]
  · simp [he]

/-- Phases B+C only add evaluation/test fields: the routing of a
successful result is the input routing. -/
theorem SmartM.phaseBC_ok_routing (env : SmartM.SmartEnv) (wt : Bool)
    (r0 r' : SmartM.SmartResult) (h : SmartM.phaseBC env wt r0 = .ok r') :
    r'.routing = r0.routing := by
  rcases hg : r0.generate with _ | gf <;>
    simp only [SmartM.phaseBC, hg] at h
  · split at h <;> (simp only [Except.ok.injEq] at h; subst h; rfl)
  · split at h
    · split at h
      · split at h <;> (simp only [Except.ok.injEq] at h; subst h; rfl)
      · split at h
        · exact absurd h (by simp)
        · simp only [Except.ok.injEq] at h; subst h; rfl
    · simp only [Except.ok.injEq] at h; subst h; rfl

/-- Inversion of phases B+C under a speculative test
(`wants_test = True`): if the input carried no evaluation yet and the
output records a controller payload with decision `REQUEST_REVISION`,
then the speculative test was discarded — the `test` field is the
skip marker and `TEST` was appended to `agents_skipped`. -/
theorem SmartM.phaseBC_revision_inversion (env : SmartM.SmartEnv)
    (r0 r' : SmartM.SmartResult) (ev : SmartM.EvalOut)
    (h0 : r0.evaluation = none)
    (hbc : SmartM.phaseBC env true r0 = .ok r')
    (hev : r'.evaluation = some (.payload ev))
    (hrr : ev.controller.decision = "REQUEST_REVISION") :
    r'.test = some (.skipped
      "Evaluation recommended revision — speculative test discarded.") ∧
    r'.agents_skipped = r0.agents_skipped ++ ["TEST"] := by
  rcases hg : r0.generate with _ | gf <;>
    simp only [SmartM.phaseBC, hg] at hbc
  · -- no generate result: no evaluation is ever recorded
    split at hbc <;> (simp only [Except.ok.injEq] at hbc; subst hbc; simp [h0] at hev)
  · by_cases hd : SmartM.diffsOfGenField gf = []
    · simp only [hd, ne_eq, not_true_eq_false, if_false, Except.ok.injEq] at hbc
      subst hbc
      simp at hev
    · simp only [ne_eq, hd, not_false_eq_true, if_true, reduceIte] at hbc
      rcases hevo : env.evalOutcome with e | ev0 <;>
        simp only [hevo] at hbc
      · -- evaluator task failed: evaluation is the error dict
        split at hbc <;> (simp only [Except.ok.injEq] at hbc; subst hbc; simp at hev)
      · split at hbc
        · -- the speculative test was accepted, so the verdict of the
          -- payload cannot be REQUEST_REVISION
          rename_i hal
          simp only [Except.ok.injEq] at hbc
          subst hbc
          simp only [Option.some.injEq, SmartM.EvalField.payload.injEq] at hev
          subst hev
          exact absurd hrr (of_decide_eq_true hal)
        · simp only [Except.ok.injEq] at hbc
          subst hbc
          exact ⟨rfl, rfl⟩

/-- C1 (code-side divergence): the retriever copy the core app
imports queries the collection for only `n_results = k` candidates
(`k or default_k`, `default_k = 8`) and returns them as `Chunk`
objects in the collection's own order — no `max(k*3, 12)` over-fetch
and no hybrid rerank.  On a concrete collection that records the
requested `n_results`, the result therefore differs from the
spec-worded pipeline (query `max(k*3, 12)`, score
`0.7·lexical + 0.3·semantic`, stable descending sort, top `k`). -/
theorem retriever_backend_no_rerank :
    (∀ (col : RetrieverM.Collection) (emb : List (List ℚ)) (query : String) (k : ℕ),
        RetrieverM.retrieve ⟨some col, emb⟩ query k =
          if emb.isEmpty then []
          else ((col (if k = 0 then 8 else k)
            ⟨true, true, true⟩).items).map RetrieverM.chunkOfItem) ∧
    RetrieverM.retrieve c1Env "auth login" 2 ≠
      ((RetrieverM.pyStableSortDesc
          (RetrieverM.specScoredCandidates "auth login"
            (c1Col (max (2 * 3) 12) ⟨true, true, true⟩))).take 2).map (·.2) := by
  constructor
  · intro col emb query k
    by_cases he : emb.isEmpty
    · simp [RetrieverM.retrieve, he]
    · cases hit : (col (if k = 0 then 8 else k) ⟨true, true, true⟩).items with
      | nil => simp [RetrieverM.retrieve, he, hit]
      | cons a l => simp [RetrieverM.retrieve, he, hit]
  · intro h
    have hl : RetrieverM.retrieve c1Env "auth login" 2 =
        [RetrieverM.chunkOfItem ⟨"id1", "def login(): pass",
          ⟨"id1", "r", "src/auth.py", 2, 2, "python", "code", 25⟩⟩] := rfl
    have hr : ((RetrieverM.pyStableSortDesc
        (RetrieverM.specScoredCandidates "auth login"
          (c1Col (max (2 * 3) 12) ⟨true, true, true⟩))).take 2).map (·.2) =
        [RetrieverM.chunkOfItem ⟨"id1", "def login(): pass",
          ⟨"id1", "r", "src/auth.py", 12, 12, "python", "code", 25⟩⟩] := by
      simp [c1Col, RetrieverM.specScoredCandidates, RetrieverM.pyStableSortDesc,
        List.mergeSort_singleton, List.enum]
    rw [hl, hr] at h
    exact absurd h (by decide)

/-- Invariant of the code-chunking loop: every emitted chunk has
`start_line = i + 1 ≥ 1`, `end_line = min(i + window, len) ≥ start`,
and its id generated from its own start line. -/
theorem ChunkerM.chunk_code_loop_invariant (ck : ChunkerM.Chunker)
    (sha : String → String) (rid fp lang : String) (lines : List String)
    (hcl : 1 ≤ ck.code_chunk_lines) :
    ∀ fuel i, ∀ c ∈ ChunkerM.chunk_code_loop ck sha rid fp lang lines fuel i,
      1 ≤ c.metadata.start_line ∧
      c.metadata.start_line ≤ c.metadata.end_line ∧
      c.metadata.chunk_id =
        ChunkerM.generate_chunk_id sha rid fp c.metadata.start_line := by
  intro fuel
  induction fuel with
  | zero => intro i c hc; simp [ChunkerM.chunk_code_loop] at hc
  | succ fuel ih =>
      intro i c hc
      rw [ChunkerM.chunk_code_loop] at hc
      split at hc
      · rcases List.mem_cons.mp hc with rfl | hc2
        · rename_i hi
          refine ⟨?_, ?_, ?_⟩
          · show 1 ≤ i + 1
            omega
          · show i + 1 ≤ min (i + ck.code_chunk_lines) lines.length
            omega
          · simp only [ChunkerM.codeChunkAt]
        · exact ih (ChunkerM.codeNextIndex ck lines i) c hc2
      · simp at hc

/-- `chunk_code_file` invariants. -/
theorem ChunkerM.chunk_code_file_invariant (ck : ChunkerM.Chunker)
    (sha : String → String) (content rid fp : String)
    (hcl : 1 ≤ ck.code_chunk_lines) :
    ∀ c ∈ ChunkerM.chunk_code_file ck sha content rid fp,
      1 ≤ c.metadata.start_line ∧
      c.metadata.start_line ≤ c.metadata.end_line ∧
      c.metadata.chunk_id =
        ChunkerM.generate_chunk_id sha rid fp c.metadata.start_line := by
  intro c hc
  simp only [ChunkerM.chunk_code_file] at hc
  split at hc
  · simp at hc
  · exact ChunkerM.chunk_code_loop_invariant ck sha rid fp _ _ hcl _ _ c hc

/-- Invariant of the doc-chunking loop, carried state:
`curStart + |cur| = i + 1` and `curStart ≥ 1`. -/
theorem ChunkerM.chunk_doc_loop_invariant (ck : ChunkerM.Chunker)
    (sha : String → String) (rid fp lang : String) :
    ∀ rest (i : ℕ) (cur : List String) (curStart curTokens : ℕ),
      curStart + cur.length = i + 1 → 1 ≤ curStart →
      ∀ c ∈ ChunkerM.chunk_doc_loop ck sha rid fp lang rest i cur curStart curTokens,
        1 ≤ c.metadata.start_line ∧
        c.metadata.start_line ≤ c.metadata.end_line ∧
        c.metadata.chunk_id =
          ChunkerM.generate_chunk_id sha rid fp c.metadata.start_line := by
  intro rest
  induction rest with
  | nil =>
      intro i cur curStart curTokens hinv h1 c hc
      rw [ChunkerM.chunk_doc_loop] at hc
      split at hc
      · simp at hc
      · rename_i hcur
        rcases List.mem_singleton.mp hc with rfl
        refine ⟨?_, ?_, ?_⟩
        · show 1 ≤ curStart
          exact h1
        · show curStart ≤ curStart + cur.length - 1
          have : 1 ≤ cur.length := List.length_pos.mpr hcur
          omega
        · simp only [ChunkerM.mkDocChunk]
  | cons line rest ih =>
      intro i cur curStart curTokens hinv h1 c hc
      rw [ChunkerM.chunk_doc_loop] at hc
      split at hc
      · rename_i hcond
        rcases List.mem_cons.mp hc with rfl | hc2
        · refine ⟨?_, ?_, ?_⟩
          · show 1 ≤ curStart
            exact h1
          · show curStart ≤ curStart + cur.length - 1
            have : 1 ≤ cur.length := List.length_pos.mpr hcond.2
            omega
          · simp only [ChunkerM.mkDocChunk]
        · have hol : 1 ≤ max 1 (ck.doc_overlap / 50) := le_max_left 1 _
          have hlen2 : (cur.drop (cur.length - max 1 (ck.doc_overlap / 50))).length =
              cur.length - (cur.length - max 1 (ck.doc_overlap / 50)) :=
            List.length_drop _ _
          have hcur1 : 1 ≤ cur.length := List.length_pos.mpr hcond.2
          refine ih (i + 1) _ _ _ ?_ ?_ c hc2
          · simp only [List.length_append, List.length_cons, List.length_nil,
              hlen2]
            omega
          · omega
      · refine ih (i + 1) _ _ _ ?_ h1 c hc
        simp only [List.length_append, List.length_cons, List.length_nil]
        omega

/-- `chunk_doc_file` invariants. -/
theorem ChunkerM.chunk_doc_file_invariant (ck : ChunkerM.Chunker)
    (sha : String → String) (content rid fp : String) :
    ∀ c ∈ ChunkerM.chunk_doc_file ck sha content rid fp,
      1 ≤ c.metadata.start_line ∧
      c.metadata.start_line ≤ c.metadata.end_line ∧
      c.metadata.chunk_id =
        ChunkerM.generate_chunk_id sha rid fp c.metadata.start_line := by
  intro c hc
  simp only [ChunkerM.chunk_doc_file] at hc
  split at hc
  · simp at hc
  · exact ChunkerM.chunk_doc_loop_invariant ck sha rid fp _ _ 0 [] 1 0 rfl le_rfl c hc

/-- `chunk_config_file` invariants. -/
theorem ChunkerM.chunk_config_file_invariant (ck : ChunkerM.Chunker)
    (sha : String → String) (content rid fp : String)
    (hcl : 1 ≤ ck.code_chunk_lines) :
    ∀ c ∈ ChunkerM.chunk_config_file ck sha content rid fp,
      1 ≤ c.metadata.start_line ∧
      c.metadata.start_line ≤ c.metadata.end_line ∧
      c.metadata.chunk_id =
        ChunkerM.generate_chunk_id sha rid fp c.metadata.start_line := by
  intro c hc
  simp only [ChunkerM.chunk_config_file] at hc
  split at hc
  · rcases List.mem_singleton.mp hc with rfl
    refine ⟨le_rfl, ?_, ?_⟩
    · show 1 ≤ (if (splitlinesKeepends content).length = 0 then 1
        else (splitlinesKeepends content).length)
      split <;> omega
    · simp only
  · exact ChunkerM.chunk_code_file_invariant ck sha content rid fp hcl c hc

/-- C8: every chunk of `chunk_file`, under every strategy, has
`1 ≤ start_line ≤ end_line` and a `chunk_id` equal to the first 16
hex digits of `sha256(repo_id + ":" + file_path + ":" + start_line)`
(the sha256 hex digest being an uninterpreted function).  The window
hypothesis `1 ≤ code_chunk_lines` holds for the global chunker
(default 150) and is what makes the code loop terminate. -/
theorem chunker_line_invariants_and_chunk_id
    (ck : ChunkerM.Chunker) (sha256hex : String → String)
    (content repo_id file_path : String)
    (hcl : 1 ≤ ck.code_chunk_lines) :
    ∀ c ∈ ChunkerM.chunk_file ck sha256hex content repo_id file_path,
      1 ≤ c.metadata.start_line ∧
      c.metadata.start_line ≤ c.metadata.end_line ∧
      c.metadata.chunk_id =
        (sha256hex (repo_id ++ ":" ++ file_path ++ ":" ++
          toString c.metadata.start_line)).take 16 := by
  intro c hc
  have base :
      1 ≤ c.metadata.start_line ∧
      c.metadata.start_line ≤ c.metadata.end_line ∧
      c.metadata.chunk_id =
        ChunkerM.generate_chunk_id sha256hex repo_id file_path
          c.metadata.start_line := by
    simp only [ChunkerM.chunk_file] at hc
    split at hc
    · exact ChunkerM.chunk_code_file_invariant ck sha256hex content repo_id
        file_path hcl c hc
    · split at hc
      · exact ChunkerM.chunk_doc_file_invariant ck sha256hex content repo_id
          file_path c hc
      · exact ChunkerM.chunk_config_file_invariant ck sha256hex content repo_id
          file_path hcl c hc
  refine ⟨base.1, base.2.1, ?_⟩
  rw [base.2.2, ChunkerM.generate_chunk_id]

/-- Witness for C8 with the default chunker (window 150) on a small
python file, the identity standing in for the sha256 digest. -/
theorem chunker_line_invariants_and_chunk_id_witness :
    1 ≤ ChunkerM.defaultChunker.code_chunk_lines ∧
    (∀ c ∈ ChunkerM.chunk_file ChunkerM.defaultChunker (fun s => s)
        "line1\nline2\nline3" "rid" "a.py",
      1 ≤ c.metadata.start_line ∧
      c.metadata.start_line ≤ c.metadata.end_line ∧
      c.metadata.chunk_id =
        ((fun s : String => s) ("rid" ++ ":" ++ "a.py" ++ ":" ++
          toString c.metadata.start_line)).take 16) :=
  ⟨by decide,
   chunker_line_invariants_and_chunk_id ChunkerM.defaultChunker (fun s => s)
     "line1\nline2\nline3" "rid" "a.py" (by decide)⟩

/-- C5: for every (cache-miss) smart-endpoint output whose evaluation
carries a controller decision of `REQUEST_REVISION` while the routing
decision requested `TEST`, the speculative test result is discarded:
`result.test` is the `{skipped: true, ...}` marker and `"TEST"` is an
element of `result.agents_skipped`. -/
theorem smart_revision_discards_speculative_test
    (env : SmartM.SmartEnv) (repo_id question : String)
    (r : SmartM.SmartResult) (ev : SmartM.EvalOut)
    (hcache : env.cachedResponse = none)
    (hres : SmartM.smart_chat env repo_id question = .ok r)
    (heval : r.evaluation = some (.payload ev))
    (hdec : ev.controller.decision = "REQUEST_REVISION")
    (htest : SmartM.wantsTestOf r.routing) :
    r.test = some (.skipped
      "Evaluation recommended revision — speculative test discarded.") ∧
    "TEST" ∈ r.agents_skipped := by
  unfold SmartM.smart_chat at hres
  rw [hcache] at hres
  by_cases href : (SmartM.decisionOf env question).primary_action =
      RouterM.AgentAction.REFUSE
  · -- the refusal payload has no evaluation field
    rw [if_pos href] at hres
    simp only [Except.ok.injEq] at hres
    subst hres
    simp at heval
  · rw [if_neg href] at hres
    unfold SmartM.smartMain at hres
    rcases hbc : SmartM.phaseBC env
        (decide (SmartM.wantsTestOf (SmartM.decisionOf env question)))
        (SmartM.phaseAResult env (SmartM.decisionOf env question)) with e | r0 <;>
      rw [hbc] at hres
    · exact absurd hres (by simp)
    · simp only [Except.ok.injEq] at hres
      subst hres
      have hfp := SmartM.finalize_preserves repo_id (SmartM.decisionOf env question) r0
      have hroute0 := SmartM.phaseBC_ok_routing _ _ _ _ hbc
      have hrouting : r0.routing = SmartM.decisionOf env question := by
        rw [hroute0]; rfl
      have hwt : decide (SmartM.wantsTestOf (SmartM.decisionOf env question)) = true := by
        apply decide_eq_true
        rw [hfp.1, hrouting] at htest
        exact htest
      rw [hwt] at hbc
      have h0 : (SmartM.phaseAResult env (SmartM.decisionOf env question)).evaluation = none := rfl
      have heval0 : r0.evaluation = some (.payload ev) := by
        rw [← hfp.2.2.1]; exact heval
      have hinv := SmartM.phaseBC_revision_inversion _ _ _ _ h0 hbc heval0 hdec
      refine ⟨?_, ?_⟩
      · rw [hfp.2.1, hinv.1]
      · rw [hfp.2.2.2, hinv.2]
        simp

/-- Witness for C5 at a concrete environment: routing
`GENERATE + TEST (parallel)`, a generate result with one diff, and an
evaluator verdict of `REQUEST_REVISION`. -/
theorem smart_revision_discards_speculative_test_witness :
    SmartM.smart_chat c5Env "repo-x" "implement feature with tests" = .ok c5Result ∧
    (c5Result.test = some (.skipped
        "Evaluation recommended revision — speculative test discarded.") ∧
      "TEST" ∈ c5Result.agents_skipped) := by
  have h : SmartM.smart_chat c5Env "repo-x" "implement feature with tests" =
      .ok c5Result := by decide
  exact ⟨h, smart_revision_discards_speculative_test c5Env "repo-x"
    "implement feature with tests" c5Result c5EvalOut rfl h (by decide) rfl
    (by decide)⟩

/-- C10: the pre-filter pattern set includes the generic substring
`"api key"`, so any question containing it — benign or not — is
refused with confidence `0.99` and zero LLM calls, and (on cache
misses) the smart endpoint then answers exactly
`"I cannot safely process this request."` with confidence `"low"`,
never consulting the repository. -/
theorem smart_api_key_query_always_refused
    (env : SmartM.SmartEnv) (repo_id question : String)
    (hq : pyIn "api key" (pyLower question) = true)
    (hcache : env.cachedResponse = none)
    (hrouting : env.cachedRouting = none) :
    RouterM.route env.llm question = (RouterM.prefilterRefusal, 0) ∧
    SmartM.smart_chat env repo_id question =
      .ok { routing := RouterM.prefilterRefusal,
            agents_used := ["REFUSE"],
            agents_skipped := [],
            answer := "I cannot safely process this request.",
            confidence := "low" } := by
  have hunsafe : RouterM.is_unsafe_query question = true := by
    simp only [RouterM.is_unsafe_query, List.any_eq_true]
    exact ⟨"api key", by decide, hq⟩
  have hroute : RouterM.route env.llm question = (RouterM.prefilterRefusal, 0) := by
    simp [RouterM.route, hunsafe]
  refine ⟨hroute, ?_⟩
  have hdec : SmartM.decisionOf env question = RouterM.prefilterRefusal := by
    unfold SmartM.decisionOf
    rw [hrouting, hroute]
  unfold SmartM.smart_chat
  rw [hcache]
  simp only [hdec]
  rfl

/-- Witness for C10 at the concrete benign question
`"Where is the api key loaded from?"`. -/
theorem smart_api_key_query_always_refused_witness :
    SmartM.smart_chat
      { llm := ⟨.error ⟨"llm down"⟩, .error ⟨"llm down"⟩, fun _ => none⟩,
        cachedResponse := none,
        cachedRouting := none,
        explainOutcome := .ok ⟨"", [], "medium"⟩,
        generateOutcome := .ok ⟨"", [], [], "", [], []⟩,
        evalOutcome := .error ⟨"never called"⟩,
        testOutcome := .ok "" }
      "0fb3d1a9c77e" "Where is the api key loaded from?" =
      .ok { routing := RouterM.prefilterRefusal,
            agents_used := ["REFUSE"],
            agents_skipped := [],
            answer := "I cannot safely process this request.",
            confidence := "low" } :=
  (smart_api_key_query_always_refused _ "0fb3d1a9c77e"
    "Where is the api key loaded from?" (by decide) rfl rfl).2

/-! ### C9: mock embedder determinism and sign-trick refinement -/

/-- One token-loop step leaves the vector length unchanged
(`list.set` never grows a list). -/
theorem MockEmbedM.addToken_length (crc32 : List ℕ → ℕ) (dim : ℕ)
    (v : List ℤ) (t : String) :
    (MockEmbedM.addToken crc32 dim v t).length = v.length := by
  simp [MockEmbedM.addToken]

/-- The entry at `j` after one token-loop step: unchanged unless the
token hashes to `j`, in which case its sign is added. -/
theorem MockEmbedM.addToken_getD (crc32 : List ℕ → ℕ) (dim : ℕ)
    (v : List ℤ) (hv : v.length = dim) (t : String) (j : ℕ) (hj : j < dim) :
    (MockEmbedM.addToken crc32 dim v t).getD j 0 =
      v.getD j 0 + (if crc32 (MockEmbedM.utf8Bytes t) % dim = j
        then (if crc32 (MockEmbedM.utf8Bytes t) % 2 = 1 then (1 : ℤ) else -1)
        else 0) := by
  have hjlen : j < v.length := by omega
  have hjlen2 : j < (MockEmbedM.addToken crc32 dim v t).length := by
    rw [MockEmbedM.addToken_length]; omega
  rw [List.getD_eq_getElem _ _ hjlen2, List.getD_eq_getElem _ _ hjlen]
  simp only [MockEmbedM.addToken] at hjlen2 ⊢
  rw [List.getElem_set]
  by_cases h : crc32 (MockEmbedM.utf8Bytes t) % dim = j
  · rw [if_pos h, if_pos h, h, List.getD_eq_getElem _ _ hjlen]
  · rw [if_neg h, if_neg h, add_zero]

/-- The whole token loop: the vector keeps length `dim`, and entry `j`
accumulates exactly the signs of the tokens hashing to `j`. -/
theorem MockEmbedM.foldl_addToken (crc32 : List ℕ → ℕ) (dim : ℕ) :
    ∀ (toks : List String) (v : List ℤ), v.length = dim →
      (toks.foldl (MockEmbedM.addToken crc32 dim) v).length = dim ∧
      ∀ j, j < dim →
        (toks.foldl (MockEmbedM.addToken crc32 dim) v).getD j 0 =
          v.getD j 0 + (toks.map fun tok =>
            if crc32 (MockEmbedM.utf8Bytes tok) % dim = j
            then (if crc32 (MockEmbedM.utf8Bytes tok) % 2 = 1 then (1 : ℤ)
                  else -1)
            else 0).sum := by
  intro toks
  induction toks with
  | nil => exact fun v hv => ⟨hv, fun j hj => by simp⟩
  | cons t ts ih =>
      intro v hv
      have hlen : (MockEmbedM.addToken crc32 dim v t).length = dim := by
        rw [MockEmbedM.addToken_length]; exact hv
      obtain ⟨h1, h2⟩ := ih (MockEmbedM.addToken crc32 dim v t) hlen
      refine ⟨by simpa using h1, ?_⟩
      intro j hj
      rw [List.foldl_cons, h2 j hj, MockEmbedM.addToken_getD crc32 dim v hv t j hj]
      simp [add_assoc]

/-- The code-side accumulated vector equals the spec-side sign-trick
vector on the same token list. -/
theorem MockEmbedM.mockRawVector_eq_spec (crc32 : List ℕ → ℕ)
    (sha : String → String) (dim : ℕ) (text : String) :
    MockEmbedM.mockRawVector crc32 sha dim text =
      MockEmbedM.specSignVector crc32 dim (MockEmbedM.mockTokens sha text) := by
  obtain ⟨hlen, hget⟩ := MockEmbedM.foldl_addToken crc32 dim
      (MockEmbedM.mockTokens sha text) (List.replicate dim 0)
      (List.length_replicate dim 0)
  unfold MockEmbedM.mockRawVector MockEmbedM.specSignVector
  apply List.ext_getElem
  · simp [hlen]
  · intro n h1 h2
    have hn : n < dim := by
      have := h1
      rw [show ((MockEmbedM.mockTokens sha text).foldl
        (MockEmbedM.addToken crc32 dim)
        (List.replicate dim 0)).length = dim from hlen] at this
      exact this
    rw [List.getElem_map, List.getElem_range]
    rw [← List.getD_eq_getElem _ (0 : ℤ) h1, hget n hn]
    have hrep : (List.replicate dim (0 : ℤ)).getD n 0 = 0 := by
      rw [List.getD_eq_getElem _ _ (by simpa using hn), List.getElem_replicate]
    rw [hrep, zero_add]

/-- C9: the mock embedder is deterministic — two runs on equal text
lists (same CRC32, same fallback digest, same dimension) return equal
vector lists — and each vector is exactly the spec-side construction:
whitespace tokens hashed by CRC32 into a `dim`-length vector with the
sign trick (index `= crc32 mod dim`, sign from the low bit), then
L2-normalized. -/
theorem mock_embedder_deterministic_sign_trick
    (crc32 : List ℕ → ℕ) (sha256hex : String → String) (dim : ℕ)
    (texts texts2 : List String) (heq : texts = texts2) :
    MockEmbedM.get_mock_embeddings crc32 sha256hex dim texts =
      MockEmbedM.get_mock_embeddings crc32 sha256hex dim texts2 ∧
    MockEmbedM.get_mock_embeddings crc32 sha256hex dim texts =
      texts.map (MockEmbedM.spec_mock_embedding crc32 sha256hex dim) := by
  subst heq
  refine ⟨rfl, ?_⟩
  unfold MockEmbedM.get_mock_embeddings MockEmbedM.spec_mock_embedding
  exact List.map_congr_left fun t _ => congrArg MockEmbedM.l2normalize
    (MockEmbedM.mockRawVector_eq_spec crc32 sha256hex dim t)

/-- Witness for C9 at dimension 4 on two concrete texts, with the
uninterpreted hashes instantiated by a byte sum and a constant digest. -/
theorem mock_embedder_deterministic_sign_trick_witness :
    (["ab", "cd ef"] : List String) = ["ab", "cd ef"] ∧
    (MockEmbedM.get_mock_embeddings (fun bs => bs.sum) (fun _ => "d0") 4
        ["ab", "cd ef"] =
      MockEmbedM.get_mock_embeddings (fun bs => bs.sum) (fun _ => "d0") 4
        ["ab", "cd ef"] ∧
     MockEmbedM.get_mock_embeddings (fun bs => bs.sum) (fun _ => "d0") 4
        ["ab", "cd ef"] =
      ["ab", "cd ef"].map
        (MockEmbedM.spec_mock_embedding (fun bs => bs.sum) (fun _ => "d0") 4)) :=
  ⟨rfl, mock_embedder_deterministic_sign_trick (fun bs => bs.sum)
    (fun _ => "d0") 4 ["ab", "cd ef"] ["ab", "cd ef"] rfl⟩

end RepoPilot
